import Mathlib

/-!
Shallow embedding of the `test-autorag` repository's core behavior:
the poll-until-terminal crawl driver (`src/crawler.py`, `main`), the
result persister (`Crawler.save_crawl_results`) and the object-storage
uploader (`src/upload_data.py`, `upload_files_to_r2`).

External effects (remote status fetches, the clock, UUID generation,
filesystem writes, object-storage uploads) are passed in as explicit
parameters; log calls, sleeps and filesystem operations are recorded as
events so that theorems can speak about what the code reports and when.
-/

namespace Autorag

/-- A page record as accessed by `save_crawl_results`: the code reads
`page_data.get("rawHtml")` (may be absent) and
`page_data.get("metadata", {}).get("sourceURL", ...)` (may be absent). -/
structure PageRecord where
  rawHtml : Option String
  sourceURL : Option String
deriving DecidableEq, Repr

/-- A value stored in a status-snapshot dictionary. -/
inductive Val where
  | vStr : String → Val
  | vNat : Nat → Val
  | vData : List PageRecord → Val
deriving DecidableEq, Repr

/-- A status snapshot is a Python dict; modelled as an association list. -/
abbrev Dict : Type := List (String × Val)

/-- `d.get(k)` on a Python dict: the first binding of `k`, if any. -/
def dget (d : Dict) (k : String) : Option Val :=
  (List.find? (fun p => p.1 = k) d).map (fun p => p.2)

/-- Python truthiness of a dict: `not status_data` is true exactly when
the dict is empty (or the fetch returned `None`, handled separately). -/
def Dict.isEmpty (d : Dict) : Bool :=
  List.isEmpty d

/-- `status_data.get("data", [])` followed by use as a record list. -/
def getData (d : Dict) : List PageRecord :=
  match dget d "data" with
  | some (.vData l) => l
  | _ => []

/-- Events the monitor loop in `main` emits: per-iteration status log,
the error log on a failed fetch, completion handling (hand-off to the
persister or the empty-data warning), the job-failed error log, the
unknown-status warning, and the fixed sleeps. -/
inductive PollEvent where
  | statusLog
  | errorFetch
  | completedLog
  | saveResults (n : Nat)
  | warnNoData
  | errorJobFailed
  | warnUnknown
  | sleep (n : Nat)
deriving DecidableEq, Repr

/-- Why the monitor loop in `main` exited. -/
inductive TermReason where
  | fetchFailure
  | completed
  | jobFailed (d : Dict)
deriving DecidableEq, Repr

/-- Result of one run of the monitor loop: exit reason, number of loop
iterations executed, and the emitted events in order. -/
structure PollOutcome where
  reason : TermReason
  iters : Nat
  events : List PollEvent
deriving DecidableEq, Repr

/-- Prepend one non-terminal iteration's events to a continuation. -/
def pollCont (hd : List PollEvent) (o : Option PollOutcome) : Option PollOutcome :=
  o.map fun r => ⟨r.reason, r.iters + 1, hd ++ r.events⟩

/-- The `while True` monitor loop of `main` (crawler.py lines 136-163),
driven by the list of successive fetch results (`None` models
`check_crawl_status` returning `None` after an exception). `none` as the
overall result means the fetch list was exhausted with the loop still
running (the loop itself has no bound). -/
def pollLoop : List (Option Dict) → Option PollOutcome
  | [] => none
  | none :: _ => some ⟨.fetchFailure, 1, [.errorFetch]⟩
  | some d :: rest =>
    if d.isEmpty then some ⟨.fetchFailure, 1, [.errorFetch]⟩
    else if dget d "status" = some (.vStr "completed") then
      if (getData d).isEmpty then
        some ⟨.completed, 1, [.statusLog, .completedLog, .warnNoData]⟩
      else
        some ⟨.completed, 1, [.statusLog, .completedLog, .saveResults (getData d).length]⟩
    else if dget d "status" = some (.vStr "failed") then
      some ⟨.jobFailed d, 1, [.statusLog, .errorJobFailed]⟩
    else if dget d "status" = some (.vStr "scraping") then
      pollCont [.statusLog, .sleep 10] (pollLoop rest)
    else
      pollCont [.statusLog, .warnUnknown, .sleep 10] (pollLoop rest)

/-- A snapshot the loop treats as non-terminal while carrying a genuine
status string: status is a string other than `completed`/`failed`. -/
def isNonTerminalStatus (d : Dict) : Bool :=
  match dget d "status" with
  | some (.vStr s) => !(s = "completed") && !(s = "failed")
  | _ => false

/-- A snapshot carrying a terminal status string. -/
def isTerminalStatus (d : Dict) : Bool :=
  dget d "status" = some (.vStr "completed") || dget d "status" = some (.vStr "failed")

/-- Outcome of one `open(...).write(...)` attempt in `save_crawl_results`:
success, an `IOError`, or any other exception — the last two are caught
per file and merely logged. -/
inductive WriteResult where
  | ok
  | ioError
  | otherError
deriving DecidableEq, Repr

/-- Events `save_crawl_results` performs, in order: the initial
`output_path.mkdir(parents=True, exist_ok=True)`, the per-record
no-content warning, a successful write, or a logged write error. -/
inductive SaveEvent where
  | mkdirOutput
  | warnNoContent (i : Nat)
  | wroteFile (name : String)
  | errorWrite (name : String)
deriving DecidableEq, Repr

/-- Result of `save_crawl_results`: the returned `saved_count`, the list
of filenames successfully written (in order), and the event trace. -/
structure SaveOutcome where
  savedCount : Nat
  files : List String
  events : List SaveEvent
deriving DecidableEq, Repr

/-- Python truthiness test `if not html_content` on the optional string. -/
def contentMissing (r : PageRecord) : Bool :=
  match r.rawHtml with
  | none => true
  | some s => s = ""

/-- The filename `f"page_{uuid.uuid4()}.html"`, with the UUID draw
modelled by an explicit generator indexed by the number of prior draws. -/
def mkFilename (uuidGen : Nat → String) (k : Nat) : String :=
  "page_" ++ uuidGen k ++ ".html"

/-- The `for i, page_data in enumerate(crawl_data)` loop of
`save_crawl_results` (crawler.py lines 95-115). `i` is the enumeration
index, `k` counts UUID draws so far; `writeRes k` is the outcome of the
k-th write attempt. -/
def saveLoop (uuidGen : Nat → String) (writeRes : Nat → WriteResult) :
    List PageRecord → Nat → Nat → SaveOutcome
  | [], _, _ => ⟨0, [], []⟩
  | r :: rs, i, k =>
    if contentMissing r then
      let o := saveLoop uuidGen writeRes rs (i + 1) k
      ⟨o.savedCount, o.files, .warnNoContent i :: o.events⟩
    else
      let name := mkFilename uuidGen k
      match writeRes k with
      | .ok =>
        let o := saveLoop uuidGen writeRes rs (i + 1) (k + 1)
        ⟨o.savedCount + 1, name :: o.files, .wroteFile name :: o.events⟩
      | _ =>
        let o := saveLoop uuidGen writeRes rs (i + 1) (k + 1)
        ⟨o.savedCount, o.files, .errorWrite name :: o.events⟩

/-- `Crawler.save_crawl_results` (crawler.py lines 88-118): create the
output directory first, then run the per-record loop and return
`saved_count`. -/
def save_crawl_results (uuidGen : Nat → String) (writeRes : Nat → WriteResult)
    (crawl_data : List PageRecord) : SaveOutcome :=
  let o := saveLoop uuidGen writeRes crawl_data 0 0
  ⟨o.savedCount, o.files, .mkdirOutput :: o.events⟩

/-- The storage settings `upload_files_to_r2` reads (settings.py). All
are strings; "missing" is modelled as the empty string, matching Python
falsiness in the code's precondition check. -/
structure R2Settings where
  r2_account_id : String
  r2_bucket_name : String
  r2_access_key_id : String
  r2_secret_access_key : String
deriving DecidableEq, Repr

/-- How a run of `upload_files_to_r2` ended: one of the early returns
(missing configuration, directory not found, client creation failure,
glob `OSError`, no files found) or the final success/failure summary. -/
inductive UploadOutcome where
  | configError
  | dirNotFound
  | clientError
  | globError
  | noFiles
  | summary (succ fail : Nat)
deriving DecidableEq, Repr

/-- Result of `upload_files_to_r2`: how it ended plus the object keys of
every attempted upload, in order. -/
structure UploadRun where
  outcome : UploadOutcome
  attempts : List String
deriving DecidableEq, Repr

/-- The `for file_path in files_to_upload` loop (upload_data.py lines
69-90): each file is attempted once; `uploadOk i` tells whether the i-th
attempt succeeds (all caught exception kinds count as one failure).
Returns (success_count, failure_count, attempted keys). -/
def uploadLoop (uploadOk : Nat → Bool) :
    List String → Nat → Nat × Nat × List String
  | [], _ => (0, 0, [])
  | f :: fs, i =>
    let r := uploadLoop uploadOk fs (i + 1)
    if uploadOk i then (r.1 + 1, r.2.1, f :: r.2.2)
    else (r.1, r.2.1 + 1, f :: r.2.2)

/-- `upload_files_to_r2` (upload_data.py lines 17-95). The endpoint URL
is built by f-string interpolation BEFORE the precondition check, and the
check tests the URL itself (`not endpoint_url`), not the account id.
`dirIsDir` models `CRAWL_OUTPUT_DIR.is_dir()`, `clientOk` the boto3
client construction, `globResult` the `glob("*.html")` call (`none` =
`OSError`), and `uploadOk` the per-file upload outcomes. -/
def upload_files_to_r2 (st : R2Settings) (dirIsDir : Bool) (clientOk : Bool)
    (globResult : Option (List String)) (uploadOk : Nat → Bool) : UploadRun :=
  let endpoint_url := "https://" ++ st.r2_account_id ++ ".r2.cloudflarestorage.com"
  if endpoint_url = "" ∨ st.r2_bucket_name = "" ∨ st.r2_access_key_id = ""
      ∨ st.r2_secret_access_key = "" then
    ⟨.configError, []⟩
  else if !dirIsDir then
    ⟨.dirNotFound, []⟩
  else if !clientOk then
    ⟨.clientError, []⟩
  else
    match globResult with
    | none => ⟨.globError, []⟩
    | some files =>
      if files.isEmpty then ⟨.noFiles, []⟩
      else
        let r := uploadLoop uploadOk files 0
        ⟨.summary r.1 r.2.1, r.2.2⟩

/-! ### Poll-driver step lemmas -/

theorem pollLoop_step_scraping (d : Dict) (fs : List (Option Dict))
    (h1 : d.isEmpty = false) (hs : dget d "status" = some (.vStr "scraping")) :
    pollLoop (some d :: fs) = pollCont [.statusLog, .sleep 10] (pollLoop fs) := by
  simp [pollLoop, h1, hs]

theorem pollLoop_step_unknown (d : Dict) (fs : List (Option Dict)) (s : String)
    (h1 : d.isEmpty = false) (hs : dget d "status" = some (.vStr s))
    (hc : s ≠ "completed") (hf : s ≠ "failed") (hscr : s ≠ "scraping") :
    pollLoop (some d :: fs) = pollCont [.statusLog, .warnUnknown, .sleep 10] (pollLoop fs) := by
  simp [pollLoop, h1, hs, hc, hf, hscr]

theorem pollLoop_step_nonterminal (d : Dict) (fs : List (Option Dict))
    (h1 : d.isEmpty = false) (h2 : isNonTerminalStatus d = true) :
    ∃ hd, pollLoop (some d :: fs) = pollCont hd (pollLoop fs) := by
  unfold isNonTerminalStatus at h2
  cases hs : dget d "status" with
  | none => rw [hs] at h2; simp at h2
  | some v =>
    rw [hs] at h2
    cases v with
    | vStr s =>
      simp only [Bool.and_eq_true, Bool.not_eq_true', decide_eq_false_iff_not] at h2
      obtain ⟨hc, hf⟩ := h2
      by_cases hscr : s = "scraping"
      · subst hscr
        exact ⟨_, pollLoop_step_scraping d fs h1 hs⟩
      · exact ⟨_, pollLoop_step_unknown d fs s h1 hs hc hf hscr⟩
    | vNat n => simp at h2
    | vData l => simp at h2

theorem pollLoop_step_terminal (d : Dict) (fs : List (Option Dict))
    (h1 : d.isEmpty = false) (h2 : isTerminalStatus d = true) :
    ∃ o, pollLoop (some d :: fs) = some o ∧ o.iters = 1 ∧
      (o.reason = .completed ∨ o.reason = .jobFailed d) := by
  unfold isTerminalStatus at h2
  simp only [Bool.or_eq_true, decide_eq_true_eq] at h2
  cases h2 with
  | inl hc =>
    by_cases hdata : (getData d).isEmpty
    · exact ⟨⟨.completed, 1, [.statusLog, .completedLog, .warnNoData]⟩,
        by simp [pollLoop, h1, hc, hdata], rfl, Or.inl rfl⟩
    · exact ⟨⟨.completed, 1, [.statusLog, .completedLog, .saveResults (getData d).length]⟩,
        by simp [pollLoop, h1, hc, hdata], rfl, Or.inl rfl⟩
  | inr hf =>
    by_cases hc : dget d "status" = some (.vStr "completed")
    · rw [hc] at hf; simp at hf
    · exact ⟨⟨.jobFailed d, 1, [.statusLog, .errorJobFailed]⟩,
        by simp [pollLoop, h1, hf, hc], rfl, Or.inr rfl⟩

/-! ### Claim theorems: poll driver -/

/-- C1: for a fetch sequence of non-terminal snapshots followed by a
terminal one, the monitor loop consumes exactly one fetch per iteration
and exits on the terminal snapshot after (number of non-terminal
snapshots) + 1 iterations, whatever fetch results would come after. -/
theorem pollLoop_terminal_convergence (snaps : List Dict) (lastSnap : Dict)
    (extra : List (Option Dict))
    (hnt : ∀ d ∈ snaps, d.isEmpty = false ∧ isNonTerminalStatus d = true)
    (h1 : lastSnap.isEmpty = false) (h2 : isTerminalStatus lastSnap = true) :
    ∃ o, pollLoop ((snaps ++ [lastSnap]).map some ++ extra) = some o ∧
      o.iters = snaps.length + 1 ∧
      (o.reason = .completed ∨ o.reason = .jobFailed lastSnap) := by
  induction snaps with
  | nil =>
    simpa using pollLoop_step_terminal lastSnap extra h1 h2
  | cons d rest ih =>
    obtain ⟨hd1, hd2⟩ := hnt d (List.mem_cons_self d rest)
    obtain ⟨o, ho, hi, hr⟩ := ih (fun x hx => hnt x (List.mem_cons_of_mem d hx))
    obtain ⟨hd, hstep⟩ :=
      pollLoop_step_nonterminal d ((rest ++ [lastSnap]).map some ++ extra) hd1 hd2
    refine ⟨⟨o.reason, o.iters + 1, hd ++ o.events⟩, ?_, by simp [hi], hr⟩
    have hshape : ((d :: rest ++ [lastSnap]).map some ++ extra)
        = some d :: ((rest ++ [lastSnap]).map some ++ extra) := by simp
    rw [hshape, hstep, ho]
    rfl

/-- C1 witness: two non-terminal snapshots (`scraping` then `pending`)
followed by `completed` terminate in exactly 3 iterations. -/
theorem pollLoop_terminal_convergence_witness :
    ∃ o, pollLoop (([[("status", Val.vStr "scraping")], [("status", Val.vStr "pending")]]
          ++ [[("status", Val.vStr "completed")]]).map some ++ []) = some o ∧
      o.iters = [[("status", Val.vStr "scraping")], [("status", Val.vStr "pending")]].length + 1 ∧
      (o.reason = .completed ∨
        o.reason = .jobFailed [("status", Val.vStr "completed")]) :=
  pollLoop_terminal_convergence
    [[("status", Val.vStr "scraping")], [("status", Val.vStr "pending")]]
    [("status", Val.vStr "completed")] [] (by decide) (by decide) (by decide)

/-- C3 counterexample: on a `pending` snapshot the code takes the
unknown-status branch — the unrecognized-status warning IS emitted. -/
theorem pollLoop_pending_warns_counterexample :
    pollLoop [some [("status", Val.vStr "pending")], some [("status", Val.vStr "completed")]]
      = some ⟨.completed, 2, [.statusLog, .warnUnknown, .sleep 10,
          .statusLog, .completedLog, .warnNoData]⟩ ∧
    PollEvent.warnUnknown ∈ [PollEvent.statusLog, PollEvent.warnUnknown, PollEvent.sleep 10,
          PollEvent.statusLog, PollEvent.completedLog, PollEvent.warnNoData] := by
  decide

/-- C3 amended: on a `pending` snapshot the driver sleeps the fixed 10
units and re-polls, but it is NOT treated like `scraping`: it falls into
the unknown-status branch and emits the unrecognized-status warning. -/
theorem pollLoop_pending_continues_with_warning (d : Dict) (fs : List (Option Dict))
    (h1 : d.isEmpty = false) (hs : dget d "status" = some (.vStr "pending")) :
    pollLoop (some d :: fs) = pollCont [.statusLog, .warnUnknown, .sleep 10] (pollLoop fs) :=
  pollLoop_step_unknown d fs "pending" h1 hs (by decide) (by decide) (by decide)

/-- C3 amended-claim witness at a concrete `pending` snapshot. -/
theorem pollLoop_pending_continues_with_warning_witness :
    pollLoop (some [("status", Val.vStr "pending")] :: [some [("status", Val.vStr "completed")]])
      = pollCont [.statusLog, .warnUnknown, .sleep 10]
          (pollLoop [some [("status", Val.vStr "completed")]]) :=
  pollLoop_pending_continues_with_warning [("status", Val.vStr "pending")]
    [some [("status", Val.vStr "completed")]] (by decide) (by decide)

/-- C5: when the fetch fails (`check_crawl_status` returns `None`) the
loop exits at once with a fetch-failure termination whose event trace
contains no persistence hand-off, and that termination reason is a
different constructor from the remote job's own `failed` outcome. -/
theorem pollLoop_fetch_failure_distinct (fs : List (Option Dict)) :
    pollLoop (none :: fs) = some ⟨.fetchFailure, 1, [.errorFetch]⟩ ∧
    (∀ n, PollEvent.saveResults n ∉ [PollEvent.errorFetch]) ∧
    (∀ d : Dict, TermReason.fetchFailure ≠ TermReason.jobFailed d) := by
  refine ⟨rfl, by intro n; simp, by intro d h; cases h⟩

/-- C5 witness at a concrete fetch sequence. -/
theorem pollLoop_fetch_failure_distinct_witness :
    pollLoop (none :: [some [("status", Val.vStr "completed")]])
        = some ⟨.fetchFailure, 1, [.errorFetch]⟩ ∧
    (∀ n, PollEvent.saveResults n ∉ [PollEvent.errorFetch]) ∧
    (∀ d : Dict, TermReason.fetchFailure ≠ TermReason.jobFailed d) :=
  pollLoop_fetch_failure_distinct [some [("status", Val.vStr "completed")]]

/-- C7: any status string outside the four recognized ones never
terminates the loop: the iteration logs a warning, sleeps the same fixed
10 units, and the loop continues with the remaining fetches. -/
theorem pollLoop_unknown_status_continues (d : Dict) (fs : List (Option Dict)) (s : String)
    (h1 : d.isEmpty = false) (hs : dget d "status" = some (.vStr s))
    (hc : s ≠ "completed") (hf : s ≠ "failed") (hscr : s ≠ "scraping") (_hp : s ≠ "pending") :
    pollLoop (some d :: fs) = pollCont [.statusLog, .warnUnknown, .sleep 10] (pollLoop fs) :=
  pollLoop_step_unknown d fs s h1 hs hc hf hscr

/-- C7 witness at a concrete unrecognized status string. -/
theorem pollLoop_unknown_status_continues_witness :
    pollLoop (some [("status", Val.vStr "queued")] :: [some [("status", Val.vStr "failed")]])
      = pollCont [.statusLog, .warnUnknown, .sleep 10]
          (pollLoop [some [("status", Val.vStr "failed")]]) :=
  pollLoop_unknown_status_continues [("status", Val.vStr "queued")]
    [some [("status", Val.vStr "failed")]] "queued"
    (by decide) (by decide) (by decide) (by decide) (by decide) (by decide)

/-- C9: a successfully fetched but empty snapshot dictionary is handled
by the same falsiness test as a failed fetch: the loop exits with the
identical fetch-failure termination. -/
theorem pollLoop_empty_snapshot_fetch_failure (fs : List (Option Dict)) :
    pollLoop (some ([] : Dict) :: fs) = pollLoop (none :: fs) ∧
    pollLoop (some ([] : Dict) :: fs) = some ⟨.fetchFailure, 1, [.errorFetch]⟩ :=
  ⟨rfl, rfl⟩

/-! ### Result-persister lemmas -/

theorem saveLoop_all_ok (uuidGen : Nat → String) (writeRes : Nat → WriteResult)
    (hw : ∀ k, writeRes k = .ok) :
    ∀ (records : List PageRecord) (i k : Nat),
      (saveLoop uuidGen writeRes records i k).savedCount
          = records.countP (fun r => !contentMissing r) ∧
      (saveLoop uuidGen writeRes records i k).files.length
          = records.countP (fun r => !contentMissing r) ∧
      (saveLoop uuidGen writeRes records i k).events.length = records.length := by
  intro records
  induction records with
  | nil => intro i k; simp [saveLoop]
  | cons r rs ih =>
    intro i k
    by_cases h : contentMissing r
    · obtain ⟨ha, hb, hcnt⟩ := ih (i + 1) k
      simp [saveLoop, h, List.countP_cons, ha, hb, hcnt]
    · obtain ⟨ha, hb, hcnt⟩ := ih (i + 1) (k + 1)
      simp only [Bool.not_eq_true] at h
      simp [saveLoop, h, hw k, List.countP_cons, ha, hb, hcnt]

theorem countP_missing_add (l : List PageRecord) :
    l.countP contentMissing + l.countP (fun r => !contentMissing r) = l.length := by
  induction l with
  | nil => simp
  | cons r rs ih =>
    by_cases h : contentMissing r <;>
      simp [List.countP_cons, h] <;> omega

theorem saveLoop_files_all_content (uuidGen : Nat → String) (writeRes : Nat → WriteResult)
    (hw : ∀ k', writeRes k' = .ok) :
    ∀ (records : List PageRecord), (∀ r ∈ records, contentMissing r = false) →
      ∀ (i k : Nat),
        (saveLoop uuidGen writeRes records i k).files
          = (List.range' k records.length).map (mkFilename uuidGen) := by
  intro records
  induction records with
  | nil => intro _ i k; simp [saveLoop]
  | cons r rs ih =>
    intro hc i k
    have hr : contentMissing r = false := hc r (List.mem_cons_self r rs)
    have hrs := ih (fun x hx => hc x (List.mem_cons_of_mem r hx)) (i + 1) (k + 1)
    simp [saveLoop, hr, hw k, hrs, List.range'_succ]

theorem string_affix_cancel (p q a b : String) (h : p ++ a ++ q = p ++ b ++ q) : a = b := by
  have hd : p.data ++ (a.data ++ q.data) = p.data ++ (b.data ++ q.data) := by
    have hdata := congrArg String.data h
    simp only [String.data_append, List.append_assoc] at hdata
    exact hdata
  have h1 : a.data ++ q.data = b.data ++ q.data := List.append_cancel_left hd
  exact String.ext (List.append_cancel_right h1)

theorem mkFilename_injective (uuidGen : Nat → String)
    (hinj : Function.Injective uuidGen) : Function.Injective (mkFilename uuidGen) := by
  intro a b h
  exact hinj (string_affix_cancel "page_" ".html" (uuidGen a) (uuidGen b) h)

theorem replicateGen_injective :
    Function.Injective (fun k => String.mk (List.replicate k 'u')) := by
  intro a b h
  have h2 : List.replicate a 'u' = List.replicate b 'u' := congrArg String.data h
  have h3 := congrArg List.length h2
  simpa using h3

theorem saveLoop_all_missing (uuidGen : Nat → String) (writeRes : Nat → WriteResult) :
    ∀ (records : List PageRecord), (∀ r ∈ records, contentMissing r = true) →
      ∀ (i k : Nat),
        (saveLoop uuidGen writeRes records i k).savedCount = 0 ∧
        (saveLoop uuidGen writeRes records i k).files = [] := by
  intro records
  induction records with
  | nil => intro _ i k; simp [saveLoop]
  | cons r rs ih =>
    intro hm i k
    have hr : contentMissing r = true := hm r (List.mem_cons_self r rs)
    have hrs := ih (fun x hx => hm x (List.mem_cons_of_mem r hx)) (i + 1) k
    simp [saveLoop, hr, hrs]

/-! ### Claim theorems: result persister -/

/-- C6: with K of N records lacking content and every write succeeding,
`save_crawl_results` writes exactly N−K files, returns N−K, the skipped
records count neither as success nor failure, and every record is
processed (one event per record besides the initial mkdir). -/
theorem save_partial_failure_isolation (uuidGen : Nat → String)
    (writeRes : Nat → WriteResult) (records : List PageRecord)
    (hw : ∀ k, writeRes k = .ok) :
    (save_crawl_results uuidGen writeRes records).savedCount
        = records.length - records.countP contentMissing ∧
    (save_crawl_results uuidGen writeRes records).files.length
        = records.length - records.countP contentMissing ∧
    (save_crawl_results uuidGen writeRes records).events.length
        = records.length + 1 := by
  obtain ⟨ha, hb, hcnt⟩ := saveLoop_all_ok uuidGen writeRes hw records 0 0
  have hsum := countP_missing_add records
  unfold save_crawl_results
  refine ⟨?_, ?_, ?_⟩
  · simp only [ha]; omega
  · simp only [hb]; omega
  · simp [hcnt]

/-- C6 witness: four records, two without content, all writes ok. -/
theorem save_partial_failure_isolation_witness :
    (save_crawl_results (fun k => Nat.repr k) (fun _ => .ok)
        [⟨some "<a>", some "u"⟩, ⟨some "", some "u"⟩, ⟨none, none⟩,
         ⟨some "<b>", some "u"⟩]).savedCount
      = [(⟨some "<a>", some "u"⟩ : PageRecord), ⟨some "", some "u"⟩, ⟨none, none⟩,
         ⟨some "<b>", some "u"⟩].length
        - [(⟨some "<a>", some "u"⟩ : PageRecord), ⟨some "", some "u"⟩, ⟨none, none⟩,
           ⟨some "<b>", some "u"⟩].countP contentMissing ∧
    (save_crawl_results (fun k => Nat.repr k) (fun _ => .ok)
        [⟨some "<a>", some "u"⟩, ⟨some "", some "u"⟩, ⟨none, none⟩,
         ⟨some "<b>", some "u"⟩]).files.length
      = [(⟨some "<a>", some "u"⟩ : PageRecord), ⟨some "", some "u"⟩, ⟨none, none⟩,
         ⟨some "<b>", some "u"⟩].length
        - [(⟨some "<a>", some "u"⟩ : PageRecord), ⟨some "", some "u"⟩, ⟨none, none⟩,
           ⟨some "<b>", some "u"⟩].countP contentMissing ∧
    (save_crawl_results (fun k => Nat.repr k) (fun _ => .ok)
        [⟨some "<a>", some "u"⟩, ⟨some "", some "u"⟩, ⟨none, none⟩,
         ⟨some "<b>", some "u"⟩]).events.length
      = [(⟨some "<a>", some "u"⟩ : PageRecord), ⟨some "", some "u"⟩, ⟨none, none⟩,
         ⟨some "<b>", some "u"⟩].length + 1 :=
  save_partial_failure_isolation (fun k => Nat.repr k) (fun _ => .ok)
    [⟨some "<a>", some "u"⟩, ⟨some "", some "u"⟩, ⟨none, none⟩, ⟨some "<b>", some "u"⟩]
    (fun _ => rfl)

/-- C8: with every record carrying content, a fresh (injective) UUID
supply and successful writes, exactly N files are produced, their names
are pairwise distinct, and the name list does not depend on the records'
source URLs or contents at all — any other all-valid record list of the
same length yields the identical names. -/
theorem save_unique_filenames (uuidGen : Nat → String) (writeRes : Nat → WriteResult)
    (records : List PageRecord)
    (hinj : Function.Injective uuidGen) (hw : ∀ k, writeRes k = .ok)
    (hc : ∀ r ∈ records, contentMissing r = false) :
    (save_crawl_results uuidGen writeRes records).files.length = records.length ∧
    (save_crawl_results uuidGen writeRes records).files.Nodup ∧
    (∀ records2 : List PageRecord, records2.length = records.length →
      (∀ r ∈ records2, contentMissing r = false) →
      (save_crawl_results uuidGen writeRes records2).files
        = (save_crawl_results uuidGen writeRes records).files) := by
  have hfiles := saveLoop_files_all_content uuidGen writeRes hw records hc 0 0
  unfold save_crawl_results
  refine ⟨by simp [hfiles], ?_, ?_⟩
  · simp only [hfiles]
    exact (List.nodup_range' 0 records.length).map (mkFilename_injective uuidGen hinj)
  · intro records2 hlen hc2
    have hfiles2 := saveLoop_files_all_content uuidGen writeRes hw records2 hc2 0 0
    simp [hfiles, hfiles2, hlen]

/-- C8 witness: three records with distinct/duplicate/missing URLs, an
injective generator, all writes ok. -/
theorem save_unique_filenames_witness :
    (save_crawl_results (fun k => String.mk (List.replicate k 'u')) (fun _ => .ok)
        [⟨some "<a>", some "u"⟩, ⟨some "<b>", some "u"⟩, ⟨some "<c>", none⟩]).files.length
      = [(⟨some "<a>", some "u"⟩ : PageRecord), ⟨some "<b>", some "u"⟩,
         ⟨some "<c>", none⟩].length ∧
    (save_crawl_results (fun k => String.mk (List.replicate k 'u')) (fun _ => .ok)
        [⟨some "<a>", some "u"⟩, ⟨some "<b>", some "u"⟩, ⟨some "<c>", none⟩]).files.Nodup ∧
    (∀ records2 : List PageRecord,
      records2.length = [(⟨some "<a>", some "u"⟩ : PageRecord), ⟨some "<b>", some "u"⟩,
          ⟨some "<c>", none⟩].length →
      (∀ r ∈ records2, contentMissing r = false) →
      (save_crawl_results (fun k => String.mk (List.replicate k 'u')) (fun _ => .ok) records2).files
        = (save_crawl_results (fun k => String.mk (List.replicate k 'u')) (fun _ => .ok)
            [⟨some "<a>", some "u"⟩, ⟨some "<b>", some "u"⟩, ⟨some "<c>", none⟩]).files) :=
  save_unique_filenames (fun k => String.mk (List.replicate k 'u')) (fun _ => .ok)
    [⟨some "<a>", some "u"⟩, ⟨some "<b>", some "u"⟩, ⟨some "<c>", none⟩]
    replicateGen_injective (fun _ => rfl) (by decide)

/-- C10: the output directory is created as the very first action, before
any record is examined, for every input; and when every record is skipped
for missing content (in particular for the empty input) the returned
success count is 0 and no file is written. -/
theorem save_mkdir_first_zero_on_skip (uuidGen : Nat → String)
    (writeRes : Nat → WriteResult) (records : List PageRecord) :
    (save_crawl_results uuidGen writeRes records).events.head? = some .mkdirOutput ∧
    ((∀ r ∈ records, contentMissing r = true) →
      (save_crawl_results uuidGen writeRes records).savedCount = 0 ∧
      (save_crawl_results uuidGen writeRes records).files = []) := by
  refine ⟨rfl, fun hm => ?_⟩
  obtain ⟨h0, hnil⟩ := saveLoop_all_missing uuidGen writeRes records hm 0 0
  exact ⟨h0, hnil⟩

/-- C10 witness: records that are all skipped (empty and missing
content). -/
theorem save_mkdir_first_zero_on_skip_witness :
    (save_crawl_results (fun k => Nat.repr k) (fun _ => .ok)
        [⟨none, some "u"⟩, ⟨some "", none⟩]).events.head? = some .mkdirOutput ∧
    ((∀ r ∈ [(⟨none, some "u"⟩ : PageRecord), ⟨some "", none⟩], contentMissing r = true) →
      (save_crawl_results (fun k => Nat.repr k) (fun _ => .ok)
          [⟨none, some "u"⟩, ⟨some "", none⟩]).savedCount = 0 ∧
      (save_crawl_results (fun k => Nat.repr k) (fun _ => .ok)
          [⟨none, some "u"⟩, ⟨some "", none⟩]).files = []) :=
  save_mkdir_first_zero_on_skip (fun k => Nat.repr k) (fun _ => .ok)
    [⟨none, some "u"⟩, ⟨some "", none⟩]

/-! ### Uploader lemmas -/

theorem endpoint_ne_empty (s : String) :
    "https://" ++ s ++ ".r2.cloudflarestorage.com" ≠ "" := by
  intro h
  have hd := congrArg String.data h
  simp only [String.data_append] at hd
  simp at hd

theorem uploadLoop_spec (uploadOk : Nat → Bool) :
    ∀ (files : List String) (i : Nat),
      (uploadLoop uploadOk files i).2.2 = files ∧
      (uploadLoop uploadOk files i).1
          = ((List.range' i files.length).filter (fun j => uploadOk j)).length ∧
      (uploadLoop uploadOk files i).2.1
          = ((List.range' i files.length).filter (fun j => !uploadOk j)).length := by
  intro files
  induction files with
  | nil => intro i; simp [uploadLoop]
  | cons f fs ih =>
    intro i
    obtain ⟨ha, hs, hf⟩ := ih (i + 1)
    by_cases h : uploadOk i <;>
      simp [uploadLoop, h, ha, hs, hf, List.range'_succ]

/-! ### Claim theorems: transfer uploader -/

/-- C2 (code bug): with an EMPTY account id but all other settings
present, the precondition check passes anyway — the code tests the
interpolated endpoint URL (never empty) instead of the account id — so
an upload is attempted and a summary, not a configuration error, is
reported. -/
theorem upload_empty_account_id_uploads_anyway :
    (upload_files_to_r2 ⟨"", "test-bucket", "AK", "SK"⟩ true true
        (some ["page_1.html"]) (fun _ => true)).outcome = .summary 1 0 ∧
    (upload_files_to_r2 ⟨"", "test-bucket", "AK", "SK"⟩ true true
        (some ["page_1.html"]) (fun _ => true)).attempts = ["page_1.html"] ∧
    (upload_files_to_r2 ⟨"", "test-bucket", "AK", "SK"⟩ true true
        (some ["page_1.html"]) (fun _ => true)).outcome ≠ .configError := by
  decide

/-- C4 counterexample: with all credentials present and the directory
existing but zero `.html` files, the code returns early with the
nothing-to-upload warning and never reports the success/failure summary
(which for N = 0 would have to be `summary 0 0`). -/
theorem upload_zero_files_no_summary :
    (upload_files_to_r2 ⟨"acct", "test-bucket", "AK", "SK"⟩ true true
        (some []) (fun _ => true)).outcome = .noFiles ∧
    (upload_files_to_r2 ⟨"acct", "test-bucket", "AK", "SK"⟩ true true
        (some []) (fun _ => true)).outcome ≠ .summary 0 0 := by
  decide

/-- C4 amended: for a directory holding N ≥ 1 `.html` files (credentials
present, directory existing, client created), every file is attempted
exactly once and the final summary satisfies success + failure = N with
the failure count equal to the number of failing uploads; for N = 0 the
code instead returns early with a nothing-to-upload warning and no
summary. -/
theorem upload_summary_counts (st : R2Settings) (files : List String)
    (uploadOk : Nat → Bool)
    (hb : st.r2_bucket_name ≠ "") (ha : st.r2_access_key_id ≠ "")
    (hs : st.r2_secret_access_key ≠ "") (hne : files ≠ []) :
    (upload_files_to_r2 st true true (some files) uploadOk).attempts = files ∧
    ∃ s f, (upload_files_to_r2 st true true (some files) uploadOk).outcome
        = .summary s f ∧
      s + f = files.length ∧
      f = ((List.range files.length).filter (fun i => !uploadOk i)).length := by
  obtain ⟨hatt, hsucc, hfail⟩ := uploadLoop_spec uploadOk files 0
  have hcfg : ¬("https://" ++ st.r2_account_id ++ ".r2.cloudflarestorage.com" = ""
      ∨ st.r2_bucket_name = "" ∨ st.r2_access_key_id = ""
      ∨ st.r2_secret_access_key = "") := by
    push_neg
    exact ⟨endpoint_ne_empty st.r2_account_id, hb, ha, hs⟩
  have hfe : files.isEmpty = false := by
    cases files with
    | nil => exact absurd rfl hne
    | cons a l => rfl
  have hrun : upload_files_to_r2 st true true (some files) uploadOk
      = ⟨.summary (uploadLoop uploadOk files 0).1 (uploadLoop uploadOk files 0).2.1,
         (uploadLoop uploadOk files 0).2.2⟩ := by
    simp [upload_files_to_r2, hcfg, hfe]
  refine ⟨by rw [hrun]; exact hatt,
    (uploadLoop uploadOk files 0).1, (uploadLoop uploadOk files 0).2.1,
    by rw [hrun], ?_, by rw [hfail, List.range_eq_range']⟩
  rw [hsucc, hfail]
  have hcount : ∀ (l : List Nat),
      (l.filter (fun j => uploadOk j)).length + (l.filter (fun j => !uploadOk j)).length
        = l.length := by
    intro l
    induction l with
    | nil => simp
    | cons x xs ih =>
      by_cases hx : uploadOk x <;> simp [List.filter_cons, hx] <;> omega
  rw [hcount]
  simp

/-- C4 amended-claim witness: two files, the second upload failing. -/
theorem upload_summary_counts_witness :
    (upload_files_to_r2 ⟨"acct", "test-bucket", "AK", "SK"⟩ true true
        (some ["a.html", "b.html"]) (fun i => i = 0)).attempts = ["a.html", "b.html"] ∧
    ∃ s f, (upload_files_to_r2 ⟨"acct", "test-bucket", "AK", "SK"⟩ true true
        (some ["a.html", "b.html"]) (fun i => i = 0)).outcome = .summary s f ∧
      s + f = ["a.html", "b.html"].length ∧
      f = ((List.range ["a.html", "b.html"].length).filter
            (fun i => !(decide (i = 0)))).length :=
  upload_summary_counts ⟨"acct", "test-bucket", "AK", "SK"⟩ ["a.html", "b.html"]
    (fun i => i = 0) (by decide) (by decide) (by decide) (by decide)

end Autorag
